import Mathlib

/- Formal model of the SoundCloudClone repository: the social-interaction toggle
   subsystem (interacciones table of part_021 plus its frontend callers), the
   search service, the playlist ordering model, and the authentication service
   (authService.js). Definitions are translated from the repository sources;
   the backend endpoint bodies absent from the source tree are modelled from
   the specification and marked as such in their doc comments. -/

namespace SCClone

/-- Value of the tipo column of the interacciones table (part_021, line 148:
CHECK tipo IN (like, repost, follow)). -/
inductive Tipo where
  | like
  | repost
  | follow
deriving DecidableEq

/-- Polymorphic interaction target: an interacciones row references exactly one
of cancion_id, playlist_id, usuario_objetivo_id (part_021, lines 145-147). -/
inductive Target where
  | song (cancion_id : Nat)
  | playlist (playlist_id : Nat)
  | user (usuario_objetivo_id : Nat)
deriving DecidableEq

/-- Row of the canciones table (part_021, lines 72-89) restricted to the
columns the claims mention; likes_count and reposts_count default to 0. -/
structure Cancion where
  cancion_id : Nat
  titulo : String
  likes_count : Int
  reposts_count : Int
deriving DecidableEq

/-- Row of the interacciones table (part_021, lines 142-156): acting user,
target, tipo. -/
structure Interaccion where
  usuario_id : Nat
  target : Target
  tipo : Tipo
deriving DecidableEq

/-- Database state over the tables the claims concern: canciones rows, the ids
of existing playlists and users, and the interacciones rows. -/
structure DBState where
  canciones : List Cancion
  playlists : List Nat
  usuarios : List Nat
  interacciones : List Interaccion
deriving DecidableEq

/-- An interacciones row matches the toggle key (usuario_id, target, tipo). -/
def keyMatches (u : Nat) (tgt : Target) (tp : Tipo) (r : Interaccion) : Bool :=
  r.usuario_id == u && r.target == tgt && r.tipo == tp

/-- The target referenced by a toggle call exists in the database. -/
def targetExists (s : DBState) : Target → Bool
  | .song cid => s.canciones.any (fun c => c.cancion_id == cid)
  | .playlist pid => s.playlists.contains pid
  | .user uid => s.usuarios.contains uid

/-- There is an active interaction row for the given key. -/
def isActive (s : DBState) (u : Nat) (tgt : Target) (tp : Tipo) : Bool :=
  s.interacciones.any (keyMatches u tgt tp)

/-- Decrement floored at zero, the counter update the spec prescribes for
removing an interaction. -/
def decFloor (x : Int) : Int := max (x - 1) 0

/-- Update every canciones row carrying the given id. -/
def updateSong (cid : Nat) (f : Cancion → Cancion) (cs : List Cancion) : List Cancion :=
  cs.map (fun c => if c.cancion_id == cid then f c else c)

/-- Write to the likes_count column: increment, or decrement floored at
zero. -/
def likeUpd (up : Bool) (c : Cancion) : Cancion :=
  { c with likes_count := if up then c.likes_count + 1 else decFloor c.likes_count }

/-- Write to the reposts_count column: increment, or decrement floored at
zero. -/
def repostUpd (up : Bool) (c : Cancion) : Cancion :=
  { c with reposts_count := if up then c.reposts_count + 1 else decFloor c.reposts_count }

/-- Denormalized-counter adjustment performed by a toggle: only canciones rows
carry counter columns (part_021); up selects increment versus floored
decrement. -/
def bumpCounter (tgt : Target) (tp : Tipo) (up : Bool) (cs : List Cancion) : List Cancion :=
  match tgt, tp with
  | .song cid, .like => updateSong cid (likeUpd up) cs
  | .song cid, .repost => updateSong cid (repostUpd up) cs
  | _, _ => cs

/-- Error signalled when the toggle target does not exist. -/
inductive ToggleError where
  | notFound
deriving DecidableEq

/-- Result of a successful toggle: the new database state and the activo flag
returned to the client (consumed as response.activo in part_012 and
PlaylistView.jsx). -/
structure ToggleResult where
  state : DBState
  activo : Bool
deriving DecidableEq

/-- Modelled from the spec: the backend view behind POST interacciones/toggle
is not under src (only the schema part_021 and the frontend callers
interactionUtils.js, part_012, PlaylistView.jsx are). Spec section 4.1: if an
active row exists, delete it and decrement the denormalized counter floored at
zero; otherwise insert a row and increment; a missing target fails with a
not-found signal; the resulting active state is returned. -/
def toggleInteraction (s : DBState) (u : Nat) (tp : Tipo) (tgt : Target) :
    Except ToggleError ToggleResult :=
  if targetExists s tgt then
    if isActive s u tgt tp then
      .ok { state := { s with
              interacciones := s.interacciones.filter (fun r => !(keyMatches u tgt tp r)),
              canciones := bumpCounter tgt tp false s.canciones },
            activo := false }
    else
      .ok { state := { s with
              interacciones := { usuario_id := u, target := tgt, tipo := tp } :: s.interacciones,
              canciones := bumpCounter tgt tp true s.canciones },
            activo := true }
  else
    .error .notFound

/-- The kind discipline of spec section 4.1: like and repost target songs or
playlists, follow targets users. -/
def kindMatches : Target → Tipo → Bool
  | .song _, .like => true
  | .song _, .repost => true
  | .playlist _, .like => true
  | .playlist _, .repost => true
  | .user _, .follow => true
  | _, _ => false

/-- Number of active interaction rows of a given tipo referencing a target. -/
def countKey (l : List Interaccion) (tgt : Target) (tp : Tipo) : Nat :=
  l.countP (fun r => r.target == tgt && r.tipo == tp)

/-- Number of active interaction rows of a given tipo referencing a target in
a database state. -/
def countInter (s : DBState) (tgt : Target) (tp : Tipo) : Nat :=
  countKey s.interacciones tgt tp

/-- Counter invariant of spec section 3: every canciones row's likes_count and
reposts_count equal the number of active interaction rows of the corresponding
tipo referencing it. -/
def countersOk (s : DBState) : Prop :=
  ∀ c ∈ s.canciones,
    c.likes_count = (countInter s (.song c.cancion_id) .like : Int) ∧
    c.reposts_count = (countInter s (.song c.cancion_id) .repost : Int)

/-- Uniqueness invariant of spec section 3: at most one interaction row per
(user, target, tipo) key, mirroring the unique_interaccion constraints of
part_021. -/
def uniqueOk (s : DBState) : Prop :=
  ∀ u tgt tp, s.interacciones.countP (keyMatches u tgt tp) ≤ 1

/-- Initial state: catalog rows created with the schema defaults of zero for
both counters and no interaction rows. -/
def initState (ids : List (Nat × String)) (pls : List Nat) (us : List Nat) : DBState :=
  { canciones := ids.map (fun p =>
      { cancion_id := p.1, titulo := p.2, likes_count := 0, reposts_count := 0 }),
    playlists := pls,
    usuarios := us,
    interacciones := [] }

/-- States reachable between completed toggle operations: an initial catalog,
completed toggles, and uploads of new songs (whose counters start at the
schema default of zero and whose fresh id is referenced by no existing row). -/
inductive Reachable : DBState → Prop where
  | init (ids : List (Nat × String)) (pls : List Nat) (us : List Nat) :
      Reachable (initState ids pls us)
  | toggle (s : DBState) (u : Nat) (tp : Tipo) (tgt : Target) (res : ToggleResult) :
      Reachable s → toggleInteraction s u tp tgt = .ok res → Reachable res.state
  | upload (s : DBState) (cid : Nat) (t : String) :
      Reachable s →
      s.interacciones.all (fun r => r.target != .song cid) = true →
      Reachable { s with canciones :=
        { cancion_id := cid, titulo := t, likes_count := 0, reposts_count := 0 } :: s.canciones }

/-- Denormalized counter stored for a target of a given tipo: the likes_count
or reposts_count column of the first canciones row carrying the id; targets
without a counter column read as zero. -/
def counterIn (cs : List Cancion) : Target → Tipo → Int
  | .song cid, .like =>
      (match cs.find? (fun c => c.cancion_id == cid) with
       | some c => c.likes_count
       | none => 0)
  | .song cid, .repost =>
      (match cs.find? (fun c => c.cancion_id == cid) with
       | some c => c.reposts_count
       | none => 0)
  | _, _ => 0

/-- Denormalized counter of a target in a database state. -/
def counterOf (s : DBState) (tgt : Target) (tp : Tipo) : Int :=
  counterIn s.canciones tgt tp

/-- Running a toggle twice on the same key, as the frontend does when a user
clicks the same button twice (part_012, PlaylistView.jsx). -/
def toggleTwice (s : DBState) (u : Nat) (tp : Tipo) (tgt : Target) :
    Except ToggleError ToggleResult :=
  match toggleInteraction s u tp tgt with
  | .ok r => toggleInteraction r.state u tp tgt
  | .error e => .error e

/-- The list ns begins with the list ms. -/
def leadsWith : List Char → List Char → Bool
  | [], _ => true
  | _ :: _, [] => false
  | a :: as, b :: bs => a == b && leadsWith as bs

/-- The first list occurs contiguously inside the second. -/
def hasSub (needle : List Char) : List Char → Bool
  | [] => needle.isEmpty
  | b :: bs => leadsWith needle (b :: bs) || hasSub needle bs

/-- Shape of the search response consumed by SearchBar.jsx. -/
structure SearchResp where
  termino_busqueda : String
  total_resultados : Nat
  resultados : List Cancion
deriving DecidableEq

/-- Characters of a string lowered case by case. -/
def lowerChars (s : String) : List Char :=
  s.data.map Char.toLower

/-- Modelled from the spec: the backend search endpoint canciones/buscar is
not under src. Spec sections 4.4 and 8: substring match against the title
field, compared case-insensitively. -/
def buscarBackend (catalog : List Cancion) (q : String) : SearchResp :=
  let rs := catalog.filter (fun c => hasSub (lowerChars q) (lowerChars c.titulo))
  { termino_busqueda := q, total_resultados := rs.length, resultados := rs }

/-- SearchService.searchSongs from interactionUtils.js: a query shorter than
two characters returns an empty result without issuing the backend request;
the Bool records whether the HTTP request was made. -/
def searchSongs (catalog : List Cancion) (q : String) : SearchResp × Bool :=
  if q.length < 2 then
    ({ termino_busqueda := q, total_resultados := 0, resultados := [] }, false)
  else
    (buscarBackend catalog q, true)

/-- Stored browser tokens: the localStorage keys access_token and
refresh_token used throughout authService.js. -/
structure ClientTokens where
  access_token : Option String
  refresh_token : Option String
deriving DecidableEq

/-- AuthService.isAuthenticated from authService.js: true exactly when an
access token is stored. -/
def isAuthenticated (t : ClientTokens) : Bool :=
  t.access_token.isSome

/-- AuthService.logout from authService.js: when a refresh token is stored the
server call is attempted first and serverThrows says whether that fetch threw;
both tokens are removed on every path and a thrown error is rethrown after the
cleanup. -/
def logout (t : ClientTokens) (serverThrows : Bool) : Except Unit String × ClientTokens :=
  match t.refresh_token with
  | some _ =>
      if serverThrows then
        (.error (), { access_token := none, refresh_token := none })
      else
        (.ok "Logout exitoso", { access_token := none, refresh_token := none })
  | none => (.ok "Logout exitoso", { access_token := none, refresh_token := none })

/-- Server response to one authenticated profile request. -/
inductive ApiResp where
  | ok
  | unauthorized
  | failed
deriving DecidableEq

/-- Server response to one token-refresh request. -/
inductive RefreshResp where
  | accepted (access : String)
  | rejected
deriving DecidableEq

/-- AuthService.refreshToken from authService.js: with no stored refresh token
it throws without touching storage; a rejected refresh calls logout (clearing
both tokens) and throws; an accepted refresh stores the new access token. The
error branch carries the token state after the failure. -/
def refreshTokenStep (t : ClientTokens) (r : RefreshResp) : Except ClientTokens ClientTokens :=
  match t.refresh_token with
  | none => .error t
  | some _ =>
      match r with
      | .accepted a => .ok { t with access_token := some a }
      | .rejected => .error (logout t false).2

/-- Outcome of one AuthService.getProfile run: success flag, final stored
tokens, number of token-refresh requests sent to the server, and number of
profile retries performed. -/
structure ProfileRun where
  succeeded : Bool
  tokens : ClientTokens
  refreshes : Nat
  retries : Nat
deriving DecidableEq

/-- AuthService.getProfile from authService.js, driven by a script pairing
each profile response with the refresh outcome consulted when that response is
a 401; an exhausted script behaves as a network failure. A 401 triggers
refreshToken and, when the refresh succeeds, a recursive retry of the call. -/
def getProfile (t : ClientTokens) (script : List (ApiResp × RefreshResp)) : ProfileRun :=
  match t.access_token with
  | none => { succeeded := false, tokens := t, refreshes := 0, retries := 0 }
  | some _ =>
      match script with
      | [] => { succeeded := false, tokens := t, refreshes := 0, retries := 0 }
      | (resp, r) :: rest =>
          match resp with
          | .ok => { succeeded := true, tokens := t, refreshes := 0, retries := 0 }
          | .failed => { succeeded := false, tokens := t, refreshes := 0, retries := 0 }
          | .unauthorized =>
              match refreshTokenStep t r with
              | .error t2 =>
                  { succeeded := false, tokens := t2,
                    refreshes := if t.refresh_token.isSome then 1 else 0, retries := 0 }
              | .ok t2 =>
                  let run := getProfile t2 rest
                  { run with refreshes := run.refreshes + 1, retries := run.retries + 1 }

/-- Local UI state of AudioCard (part_012): the cancionId prop, the liked
flag, the likes count shown, and the loading flag guarding in-flight
requests. -/
structure AudioCardState where
  cancionId : Option Nat
  isLiked : Bool
  likes : Int
  loading : Bool
deriving DecidableEq

/-- AudioCard.handleLike from part_012 for one click, given the activo flag
the toggle endpoint would return: the early return when cancionId is missing
or a request is already in flight leaves the state unchanged; the Bool
reports whether a toggle request was sent. -/
def handleLike (st : AudioCardState) (activo : Bool) : AudioCardState × Bool :=
  match st.cancionId with
  | none => (st, false)
  | some _ =>
      if st.loading then (st, false)
      else
        ({ st with isLiked := activo,
                   likes := if activo then st.likes + 1 else max 0 (st.likes - 1),
                   loading := false }, true)

/-- Row of the playlist_canciones join table (part_021, lines 122-137): song
reference and the integer orden column used for ordering; gaps and duplicate
orden values are legal. -/
structure PlaylistCancion where
  cancion_id : Nat
  orden : Int
deriving DecidableEq

/-- Insert a row into a list sorted by orden, after every row with a strictly
smaller orden and before rows with an equal one coming later in the scan. -/
def insertRow (r : PlaylistCancion) : List PlaylistCancion → List PlaylistCancion
  | [] => [r]
  | x :: xs => if x.orden < r.orden then x :: insertRow r xs else r :: x :: xs

/-- Modelled from the spec: fetching a playlist returns its join rows sorted
ascending by the orden column (the backend list endpoint is not under src); a
stable insertion sort models the ORDER BY. -/
def sortByOrden : List PlaylistCancion → List PlaylistCancion
  | [] => []
  | r :: rs => insertRow r (sortByOrden rs)

/-- Index of the first occurrence of cid in a list of song ids. -/
def idxOf (cid : Nat) : List Nat → Nat
  | [] => 0
  | x :: xs => if x == cid then 0 else idxOf cid xs + 1

/-- Modelled from the spec: reordering is a bulk update of the orden column of
the affected join rows, assigning each row its position in the requested song
order. -/
def reorder (target : List Nat) (rows : List PlaylistCancion) : List PlaylistCancion :=
  rows.map (fun r => { r with orden := (idxOf r.cancion_id target : Int) })

/-- Song ids of a playlist in the order a re-fetch returns them. -/
def fetchIds (rows : List PlaylistCancion) : List Nat :=
  (sortByOrden rows).map (fun r => r.cancion_id)

/-- Concrete state reached from a one-song catalog by one completed like
toggle: the song carries one like and one matching interaction row. -/
def demoLiked : DBState :=
  { canciones := [{ cancion_id := 1, titulo := "a", likes_count := 1, reposts_count := 0 }],
    playlists := [],
    usuarios := [],
    interacciones := [{ usuario_id := 1, target := .song 1, tipo := .like }] }

/-- Concrete state used by the C2 counterexample: one song whose stored
likes_count of zero disagrees with its one active like row. -/
def demoMismatch : DBState :=
  { canciones := [{ cancion_id := 1, titulo := "a", likes_count := 0, reposts_count := 0 }],
    playlists := [],
    usuarios := [],
    interacciones := [{ usuario_id := 1, target := .song 1, tipo := .like }] }

theorem countP_split (l : List Interaccion) (p q : Interaccion → Bool) :
    l.countP p = l.countP (fun a => p a && q a) + l.countP (fun a => p a && !(q a)) := by
  induction l with
  | nil => simp
  | cons x xs ih =>
      simp only [List.countP_cons, ih]
      cases hp : p x <;> cases hq : q x <;> simp [hp, hq] <;> omega

theorem countKey_decomp (l : List Interaccion) (u : Nat) (tgt : Target) (tp : Tipo) :
    countKey l tgt tp =
      l.countP (keyMatches u tgt tp) +
      l.countP (fun r => (r.target == tgt && r.tipo == tp) && !(keyMatches u tgt tp r)) := by
  unfold countKey
  rw [countP_split l (fun r => r.target == tgt && r.tipo == tp) (keyMatches u tgt tp)]
  congr 1
  apply List.countP_congr
  intro r _
  cases h1 : (r.target == tgt) <;> cases h2 : (r.tipo == tp) <;>
    cases h3 : (r.usuario_id == u) <;> simp [keyMatches, h1, h2, h3]

theorem countKey_filter_out (l : List Interaccion) (u : Nat) (tgt : Target) (tp : Tipo) :
    countKey (l.filter (fun r => !(keyMatches u tgt tp r))) tgt tp =
      countKey l tgt tp - l.countP (keyMatches u tgt tp) := by
  have hd := countKey_decomp l u tgt tp
  unfold countKey at hd ⊢
  rw [List.countP_filter]
  omega

theorem countKey_le_of_key (l : List Interaccion) (u : Nat) (tgt : Target) (tp : Tipo) :
    l.countP (keyMatches u tgt tp) ≤ countKey l tgt tp := by
  have hd := countKey_decomp l u tgt tp
  omega

theorem countKey_filter_ne (l : List Interaccion) (u : Nat) (tgt : Target) (tp : Tipo)
    (tgt2 : Target) (tp2 : Tipo) (hne : tgt ≠ tgt2 ∨ tp ≠ tp2) :
    countKey (l.filter (fun r => !(keyMatches u tgt tp r))) tgt2 tp2 =
      countKey l tgt2 tp2 := by
  unfold countKey
  rw [List.countP_filter]
  apply List.countP_congr
  intro r _
  cases h2 : (r.target == tgt2 && r.tipo == tp2) with
  | false => simp [h2]
  | true =>
      simp only [Bool.and_eq_true] at h2
      have hm : keyMatches u tgt tp r = false := by
        unfold keyMatches
        rcases hne with h | h
        · have ht : (r.target == tgt) = false := by
            rw [beq_eq_false_iff_ne]
            rw [eq_of_beq h2.1]
            exact fun hh => h hh.symm
          simp [ht]
        · have ht : (r.tipo == tp) = false := by
            rw [beq_eq_false_iff_ne]
            rw [eq_of_beq h2.2]
            exact fun hh => h hh.symm
          simp [ht]
      simp [h2, hm]

theorem countKey_cons (r : Interaccion) (l : List Interaccion) (tgt2 : Target) (tp2 : Tipo) :
    countKey (r :: l) tgt2 tp2 =
      countKey l tgt2 tp2 + (if r.target == tgt2 && r.tipo == tp2 then 1 else 0) :=
  List.countP_cons _ _ _

theorem active_countP_one (s : DBState) (u : Nat) (tgt : Target) (tp : Tipo)
    (hA : isActive s u tgt tp = true) (hu : uniqueOk s) :
    s.interacciones.countP (keyMatches u tgt tp) = 1 := by
  have h1 : 0 < s.interacciones.countP (keyMatches u tgt tp) :=
    List.countP_pos_iff.mpr (List.any_eq_true.mp hA)
  have h2 := hu u tgt tp
  omega

theorem inactive_countP_zero (s : DBState) (u : Nat) (tgt : Target) (tp : Tipo)
    (hA : isActive s u tgt tp = false) :
    s.interacciones.countP (keyMatches u tgt tp) = 0 := by
  rw [List.countP_eq_zero]
  intro a ha hk
  have : isActive s u tgt tp = true := List.any_eq_true.mpr ⟨a, ha, hk⟩
  rw [hA] at this
  exact Bool.noConfusion this

theorem decFloor_of_pos (x : Int) (h : 1 ≤ x) : decFloor x = x - 1 := by
  unfold decFloor
  rw [max_eq_left]
  omega

theorem decFloor_of_nonneg_succ (x : Int) (h : 0 ≤ x) : decFloor (x + 1) = x := by
  unfold decFloor
  rw [max_eq_left]
  · omega
  · omega

theorem leadsWith_iff (n : List Char) : ∀ h : List Char, leadsWith n h = true ↔ n <+: h := by
  induction n with
  | nil => intro h; simp [leadsWith]
  | cons a as ih =>
      intro h
      cases h with
      | nil => simp [leadsWith]
      | cons b bs =>
          simp only [leadsWith, Bool.and_eq_true, beq_iff_eq, ih, List.cons_prefix_cons]

theorem hasSub_iff (n h : List Char) : hasSub n h = true ↔ n <:+: h := by
  induction h with
  | nil => simp [hasSub, List.isEmpty_iff]
  | cons b bs ih => simp [hasSub, leadsWith_iff, ih, List.infix_cons_iff]

/-- C6: a search for a query shorter than two characters returns zero results
without issuing a backend request, and a query of at least two characters is
sent to the backend and returns exactly the catalog songs whose lowercased
titles contain the lowercased term as a contiguous substring. -/
theorem search_min_length_and_matches (catalog : List Cancion) (q : String) :
    (q.length < 2 →
      searchSongs catalog q =
        ({ termino_busqueda := q, total_resultados := 0, resultados := [] }, false)) ∧
    (2 ≤ q.length →
      (searchSongs catalog q).2 = true ∧
      ∀ c, c ∈ (searchSongs catalog q).1.resultados ↔
        c ∈ catalog ∧ lowerChars q <:+: lowerChars c.titulo) := by
  constructor
  · intro h
    unfold searchSongs
    rw [if_pos h]
  · intro h
    have h2 : ¬ q.length < 2 := by omega
    unfold searchSongs
    rw [if_neg h2]
    refine ⟨rfl, ?_⟩
    intro c
    simp [buscarBackend, List.mem_filter, hasSub_iff]

/-- Witness for C6 at a concrete catalog and term. -/
theorem search_min_length_and_matches_witness :
    2 ≤ ("LO W" : String).length ∧
    ({ cancion_id := 1, titulo := "Hello World", likes_count := 0, reposts_count := 0 } : Cancion) ∈
      (searchSongs
        [{ cancion_id := 1, titulo := "Hello World", likes_count := 0, reposts_count := 0 }]
        "LO W").1.resultados :=
  ⟨by decide,
    (((search_min_length_and_matches
        [{ cancion_id := 1, titulo := "Hello World", likes_count := 0, reposts_count := 0 }]
        "LO W").2 (by decide)).2 _).mpr
      ⟨by simp, by
        have := (hasSub_iff (lowerChars "LO W") (lowerChars "Hello World")).mp (by decide)
        exact this⟩⟩

/-- C7 amended: each 401-failing profile call performs exactly one token
refresh followed by exactly one retry of the call (the retry is a fresh call
run with the new access token); a server-rejected refresh clears both tokens
and performs no retry; with no stored refresh token the failure propagates
without a refresh request, without a retry and without clearing the stored
access token. -/
theorem refresh_retry (t : ClientTokens) (a na : String)
    (rest : List (ApiResp × RefreshResp)) (r : RefreshResp)
    (ha : t.access_token = some a) :
    (t.refresh_token.isSome = true →
      getProfile t ((ApiResp.unauthorized, RefreshResp.accepted na) :: rest) =
        (let run := getProfile { t with access_token := some na } rest
         { run with refreshes := run.refreshes + 1, retries := run.retries + 1 })) ∧
    (t.refresh_token.isSome = true →
      getProfile t ((ApiResp.unauthorized, RefreshResp.rejected) :: rest) =
        { succeeded := false,
          tokens := { access_token := none, refresh_token := none },
          refreshes := 1, retries := 0 }) ∧
    (t.refresh_token = none →
      getProfile t ((ApiResp.unauthorized, r) :: rest) =
        { succeeded := false, tokens := t, refreshes := 0, retries := 0 }) := by
  obtain ⟨acc, rt⟩ := t
  cases ha
  refine ⟨?_, ?_, ?_⟩ <;> intro hrt <;> cases rt <;>
    simp_all [getProfile, refreshTokenStep, logout]

/-- Witness for C7 amended at a concrete token state and script. -/
theorem refresh_retry_witness :
    getProfile { access_token := some "a", refresh_token := some "b" }
        [(ApiResp.unauthorized, RefreshResp.rejected)] =
      { succeeded := false, tokens := { access_token := none, refresh_token := none },
        refreshes := 1, retries := 0 } :=
  (refresh_retry { access_token := some "a", refresh_token := some "b" }
      "a" "x" [] RefreshResp.rejected rfl).2.1 rfl

/-- Counterexample to C7 as stated: with an access token stored but no refresh
token a 401 makes the refresh fail, yet the stored access token is not cleared
and the client still reports itself authenticated, so the claimed forced
logout on refresh failure does not happen on this input. -/
theorem refresh_failure_keeps_token_cex :
    (getProfile { access_token := some "a", refresh_token := none }
        [(ApiResp.unauthorized, RefreshResp.rejected)]).succeeded = false ∧
    (getProfile { access_token := some "a", refresh_token := none }
        [(ApiResp.unauthorized, RefreshResp.rejected)]).retries = 0 ∧
    isAuthenticated (getProfile { access_token := some "a", refresh_token := none }
        [(ApiResp.unauthorized, RefreshResp.rejected)]).tokens = true := by
  decide

theorem updateSong_id (cid : Nat) (f : Cancion → Cancion)
    (hf : ∀ c, (f c).cancion_id = c.cancion_id) (c : Cancion) :
    (if c.cancion_id == cid then f c else c).cancion_id = c.cancion_id := by
  cases hb : (c.cancion_id == cid) <;> simp [hf]

theorem find?_updateSong (cid cid2 : Nat) (f : Cancion → Cancion)
    (hf : ∀ c, (f c).cancion_id = c.cancion_id) :
    ∀ cs : List Cancion,
      (updateSong cid f cs).find? (fun c => c.cancion_id == cid2) =
        (cs.find? (fun c => c.cancion_id == cid2)).map
          (fun c => if c.cancion_id == cid then f c else c) := by
  intro cs
  induction cs with
  | nil => rfl
  | cons c cs ih =>
      unfold updateSong at ih ⊢
      simp only [List.map_cons, List.find?_cons]
      have hid : ((if c.cancion_id == cid then f c else c).cancion_id == cid2) =
          (c.cancion_id == cid2) := by
        rw [updateSong_id cid f hf c]
      rw [hid]
      cases hp : (c.cancion_id == cid2) with
      | true => rfl
      | false => exact ih

theorem bumpCounter_id (cs : List Cancion) (tgt : Target) (tp : Tipo) (up : Bool)
    (h : (∀ cid, tgt ≠ Target.song cid) ∨ tp = Tipo.follow) :
    bumpCounter tgt tp up cs = cs := by
  cases tgt <;> cases tp <;> first
    | rfl
    | (exfalso
       rcases h with h | h
       · exact h _ rfl
       · exact Tipo.noConfusion h)

theorem counterIn_not_song (cs : List Cancion) (tgt : Target) (tp : Tipo)
    (h : ∀ cid, tgt ≠ Target.song cid) : counterIn cs tgt tp = 0 := by
  cases tgt with
  | song cid => exact absurd rfl (h cid)
  | playlist _ => rfl
  | user _ => rfl

theorem find?_updateSong_some (cid cid2 : Nat) (f : Cancion → Cancion)
    (hf : ∀ c, (f c).cancion_id = c.cancion_id) (cs : List Cancion) (c0 : Cancion)
    (h : cs.find? (fun c => c.cancion_id == cid2) = some c0) :
    (updateSong cid f cs).find? (fun c => c.cancion_id == cid2) =
      some (if c0.cancion_id == cid then f c0 else c0) := by
  rw [find?_updateSong cid cid2 f hf cs, h]
  rfl

theorem find?_updateSong_none (cid cid2 : Nat) (f : Cancion → Cancion)
    (hf : ∀ c, (f c).cancion_id = c.cancion_id) (cs : List Cancion)
    (h : cs.find? (fun c => c.cancion_id == cid2) = none) :
    (updateSong cid f cs).find? (fun c => c.cancion_id == cid2) = none := by
  rw [find?_updateSong cid cid2 f hf cs, h]
  rfl

theorem counterIn_bump_like (cs : List Cancion) (cid : Nat) (up : Bool)
    (hex : cs.any (fun c => c.cancion_id == cid) = true) :
    counterIn (bumpCounter (Target.song cid) Tipo.like up cs) (Target.song cid) Tipo.like =
      (if up then counterIn cs (Target.song cid) Tipo.like + 1
       else decFloor (counterIn cs (Target.song cid) Tipo.like)) := by
  have hsome : (cs.find? (fun c => c.cancion_id == cid)).isSome := by
    rw [List.find?_isSome]
    exact List.any_eq_true.mp hex
  obtain ⟨c0, hc0⟩ := Option.isSome_iff_exists.mp hsome
  have hp := List.find?_some hc0
  simp only at hp
  simp only [counterIn, bumpCounter]
  rw [find?_updateSong_some cid cid (likeUpd up) (fun c => rfl) cs c0 hc0, hc0, if_pos hp]
  cases up <;> simp [likeUpd]

theorem counterIn_bump_repost (cs : List Cancion) (cid : Nat) (up : Bool)
    (hex : cs.any (fun c => c.cancion_id == cid) = true) :
    counterIn (bumpCounter (Target.song cid) Tipo.repost up cs) (Target.song cid) Tipo.repost =
      (if up then counterIn cs (Target.song cid) Tipo.repost + 1
       else decFloor (counterIn cs (Target.song cid) Tipo.repost)) := by
  have hsome : (cs.find? (fun c => c.cancion_id == cid)).isSome := by
    rw [List.find?_isSome]
    exact List.any_eq_true.mp hex
  obtain ⟨c0, hc0⟩ := Option.isSome_iff_exists.mp hsome
  have hp := List.find?_some hc0
  simp only at hp
  simp only [counterIn, bumpCounter]
  rw [find?_updateSong_some cid cid (repostUpd up) (fun c => rfl) cs c0 hc0, hc0, if_pos hp]
  cases up <;> simp [repostUpd]

theorem counterIn_bump_ne (cs : List Cancion) (tgt : Target) (tp : Tipo) (up : Bool)
    (tgt2 : Target) (tp2 : Tipo) (hne : tgt ≠ tgt2 ∨ tp ≠ tp2) :
    counterIn (bumpCounter tgt tp up cs) tgt2 tp2 = counterIn cs tgt2 tp2 := by
  rcases tgt2 with cid2 | pid2 | uid2
  case playlist => rw [counterIn_not_song _ _ _ (fun _ h => Target.noConfusion h),
    counterIn_not_song _ _ _ (fun _ h => Target.noConfusion h)]
  case user => rw [counterIn_not_song _ _ _ (fun _ h => Target.noConfusion h),
    counterIn_not_song _ _ _ (fun _ h => Target.noConfusion h)]
  case song =>
    rcases tgt with cid | pid | uid
    case playlist => rw [bumpCounter_id _ _ _ _ (Or.inl (fun _ h => Target.noConfusion h))]
    case user => rw [bumpCounter_id _ _ _ _ (Or.inl (fun _ h => Target.noConfusion h))]
    case song =>
      cases tp with
      | follow => rw [bumpCounter_id _ _ _ _ (Or.inr rfl)]
      | like =>
          have hb : bumpCounter (Target.song cid) Tipo.like up cs =
              updateSong cid (likeUpd up) cs := rfl
          rw [hb]
          cases tp2 with
          | follow => rfl
          | repost =>
              simp only [counterIn]
              cases hfind : cs.find? (fun c => c.cancion_id == cid2) with
              | none => rw [find?_updateSong_none cid cid2 (likeUpd up) (fun c => rfl) cs hfind]
              | some c0 =>
                  rw [find?_updateSong_some cid cid2 (likeUpd up) (fun c => rfl) cs c0 hfind]
                  cases hcc : (c0.cancion_id == cid) <;> simp [likeUpd]
          | like =>
              have hcid : cid ≠ cid2 := by
                rcases hne with h | h
                · exact fun hh => h (by rw [hh])
                · exact absurd rfl h
              simp only [counterIn]
              cases hfind : cs.find? (fun c => c.cancion_id == cid2) with
              | none => rw [find?_updateSong_none cid cid2 (likeUpd up) (fun c => rfl) cs hfind]
              | some c0 =>
                  rw [find?_updateSong_some cid cid2 (likeUpd up) (fun c => rfl) cs c0 hfind]
                  have hp := List.find?_some hfind
                  simp only at hp
                  have e2 := eq_of_beq hp
                  have hcc : (c0.cancion_id == cid) = false :=
                    beq_eq_false_iff_ne.mpr (by omega)
                  simp [hcc]
      | repost =>
          have hb : bumpCounter (Target.song cid) Tipo.repost up cs =
              updateSong cid (repostUpd up) cs := rfl
          rw [hb]
          cases tp2 with
          | follow => rfl
          | like =>
              simp only [counterIn]
              cases hfind : cs.find? (fun c => c.cancion_id == cid2) with
              | none => rw [find?_updateSong_none cid cid2 (repostUpd up) (fun c => rfl) cs hfind]
              | some c0 =>
                  rw [find?_updateSong_some cid cid2 (repostUpd up) (fun c => rfl) cs c0 hfind]
                  cases hcc : (c0.cancion_id == cid) <;> simp [repostUpd]
          | repost =>
              have hcid : cid ≠ cid2 := by
                rcases hne with h | h
                · exact fun hh => h (by rw [hh])
                · exact absurd rfl h
              simp only [counterIn]
              cases hfind : cs.find? (fun c => c.cancion_id == cid2) with
              | none => rw [find?_updateSong_none cid cid2 (repostUpd up) (fun c => rfl) cs hfind]
              | some c0 =>
                  rw [find?_updateSong_some cid cid2 (repostUpd up) (fun c => rfl) cs c0 hfind]
                  have hp := List.find?_some hfind
                  simp only at hp
                  have e2 := eq_of_beq hp
                  have hcc : (c0.cancion_id == cid) = false :=
                    beq_eq_false_iff_ne.mpr (by omega)
                  simp [hcc]

theorem decFloor_delta (x : Int) (hx : 0 ≤ x) : (decFloor x - x).natAbs ≤ 1 := by
  unfold decFloor
  rcases le_total (x - 1) 0 with h | h
  · rw [max_eq_right h]; omega
  · rw [max_eq_left h]; omega

theorem toggle_ok_cases (s : DBState) (u : Nat) (tp : Tipo) (tgt : Target)
    (res : ToggleResult) (h : toggleInteraction s u tp tgt = .ok res) :
    res.state.canciones = bumpCounter tgt tp (!(isActive s u tgt tp)) s.canciones ∧
    res.state.playlists = s.playlists ∧
    res.state.usuarios = s.usuarios ∧
    res.activo = !(isActive s u tgt tp) ∧
    res.state.interacciones =
      (if isActive s u tgt tp then
        s.interacciones.filter (fun r => !(keyMatches u tgt tp r))
       else
        { usuario_id := u, target := tgt, tipo := tp } :: s.interacciones) := by
  unfold toggleInteraction at h
  by_cases ht : targetExists s tgt = true
  · rw [if_pos ht] at h
    by_cases ha : isActive s u tgt tp = true
    · rw [if_pos ha] at h
      simp only [Except.ok.injEq] at h
      subst h
      simp [ha]
    · have ha' : isActive s u tgt tp = false := by simpa using ha
      rw [ha'] at h
      simp only [Bool.false_eq_true, if_false, Except.ok.injEq] at h
      subst h
      simp [ha']
  · have ht' : targetExists s tgt = false := by simpa using ht
    rw [ht'] at h
    simp at h

theorem isActive_after_filter (l : List Interaccion) (u : Nat) (tgt : Target) (tp : Tipo) :
    (l.filter (fun r => !(keyMatches u tgt tp r))).any (keyMatches u tgt tp) = false := by
  rw [← Bool.not_eq_true, List.any_eq_true]
  rintro ⟨r, hr, hm⟩
  rw [List.mem_filter] at hr
  rw [hm] at hr
  simp at hr

theorem keyMatches_self (u : Nat) (tgt : Target) (tp : Tipo) :
    keyMatches u tgt tp { usuario_id := u, target := tgt, tipo := tp } = true := by
  simp [keyMatches]

theorem song_beq_ne (a b : Nat) (h : a ≠ b) : (Target.song a == Target.song b) = false :=
  beq_eq_false_iff_ne.mpr (fun hh => h (Target.song.inj hh))

theorem toggle_preserves_inv (s : DBState) (u : Nat) (tp : Tipo) (tgt : Target)
    (res : ToggleResult) (h : toggleInteraction s u tp tgt = .ok res)
    (hc : countersOk s) (hu : uniqueOk s) :
    countersOk res.state ∧ uniqueOk res.state := by
  obtain ⟨hcanc, -, -, -, hint⟩ := toggle_ok_cases s u tp tgt res h
  cases hA : isActive s u tgt tp with
  | true =>
      rw [hA] at hcanc hint
      rw [if_pos rfl] at hint
      simp only [Bool.not_true] at hcanc
      have hone : s.interacciones.countP (keyMatches u tgt tp) = 1 :=
        active_countP_one s u tgt tp hA hu
      constructor
      · intro c2 hmem
        rw [hcanc] at hmem
        simp only [countInter]
        rw [hint]
        cases tgt with
        | playlist pid =>
            rw [bumpCounter_id s.canciones _ _ _
              (Or.inl (fun _ hh => Target.noConfusion hh))] at hmem
            obtain ⟨hcl, hcr⟩ := hc c2 hmem
            simp only [countInter] at hcl hcr
            rw [countKey_filter_ne _ u _ _ _ _ (Or.inl (fun hh => Target.noConfusion hh)),
              countKey_filter_ne _ u _ _ _ _ (Or.inl (fun hh => Target.noConfusion hh))]
            exact ⟨hcl, hcr⟩
        | user uid =>
            rw [bumpCounter_id s.canciones _ _ _
              (Or.inl (fun _ hh => Target.noConfusion hh))] at hmem
            obtain ⟨hcl, hcr⟩ := hc c2 hmem
            simp only [countInter] at hcl hcr
            rw [countKey_filter_ne _ u _ _ _ _ (Or.inl (fun hh => Target.noConfusion hh)),
              countKey_filter_ne _ u _ _ _ _ (Or.inl (fun hh => Target.noConfusion hh))]
            exact ⟨hcl, hcr⟩
        | song cid =>
            cases tp with
            | follow =>
                rw [bumpCounter_id s.canciones _ _ _ (Or.inr rfl)] at hmem
                obtain ⟨hcl, hcr⟩ := hc c2 hmem
                simp only [countInter] at hcl hcr
                rw [countKey_filter_ne _ u _ _ _ _ (Or.inr (fun hh => Tipo.noConfusion hh)),
                  countKey_filter_ne _ u _ _ _ _ (Or.inr (fun hh => Tipo.noConfusion hh))]
                exact ⟨hcl, hcr⟩
            | like =>
                rw [show bumpCounter (Target.song cid) Tipo.like false s.canciones =
                    updateSong cid (likeUpd false) s.canciones from rfl] at hmem
                unfold updateSong at hmem
                rw [List.mem_map] at hmem
                obtain ⟨c0, hc0mem, hc0eq⟩ := hmem
                obtain ⟨hcl, hcr⟩ := hc c0 hc0mem
                simp only [countInter] at hcl hcr
                subst hc0eq
                rw [updateSong_id cid (likeUpd false) (fun c => rfl) c0]
                cases hcc : (c0.cancion_id == cid) with
                | true =>
                    have hcid : c0.cancion_id = cid := eq_of_beq hcc
                    subst hcid
                    rw [if_pos rfl]
                    have hk1 : 1 ≤ countKey s.interacciones (Target.song c0.cancion_id) Tipo.like := by
                      have := countKey_le_of_key s.interacciones u (Target.song c0.cancion_id) Tipo.like
                      omega
                    constructor
                    · rw [countKey_filter_out, hone]
                      show (likeUpd false c0).likes_count = _
                      have : (likeUpd false c0).likes_count = decFloor c0.likes_count := by
                        simp [likeUpd]
                      rw [this, hcl, decFloor_of_pos _ (by exact_mod_cast hk1)]
                      omega
                    · rw [countKey_filter_ne _ u _ _ _ _ (Or.inr (fun hh => Tipo.noConfusion hh))]
                      show (likeUpd false c0).reposts_count = _
                      have : (likeUpd false c0).reposts_count = c0.reposts_count := rfl
                      rw [this, hcr]
                | false =>
                    rw [if_neg (by simp [hcc])]
                    have hne : Target.song cid ≠ Target.song c0.cancion_id := by
                      intro hh
                      have := Target.song.inj hh
                      have h2 := eq_of_beq (a := c0.cancion_id) (b := cid)
                      rw [beq_eq_false_iff_ne] at hcc
                      exact hcc this.symm
                    rw [countKey_filter_ne _ u _ _ _ _ (Or.inl hne),
                      countKey_filter_ne _ u _ _ _ _ (Or.inl hne)]
                    exact ⟨hcl, hcr⟩
            | repost =>
                rw [show bumpCounter (Target.song cid) Tipo.repost false s.canciones =
                    updateSong cid (repostUpd false) s.canciones from rfl] at hmem
                unfold updateSong at hmem
                rw [List.mem_map] at hmem
                obtain ⟨c0, hc0mem, hc0eq⟩ := hmem
                obtain ⟨hcl, hcr⟩ := hc c0 hc0mem
                simp only [countInter] at hcl hcr
                subst hc0eq
                rw [updateSong_id cid (repostUpd false) (fun c => rfl) c0]
                cases hcc : (c0.cancion_id == cid) with
                | true =>
                    have hcid : c0.cancion_id = cid := eq_of_beq hcc
                    subst hcid
                    rw [if_pos rfl]
                    have hk1 : 1 ≤ countKey s.interacciones (Target.song c0.cancion_id) Tipo.repost := by
                      have := countKey_le_of_key s.interacciones u (Target.song c0.cancion_id) Tipo.repost
                      omega
                    constructor
                    · rw [countKey_filter_ne _ u _ _ _ _ (Or.inr (fun hh => Tipo.noConfusion hh))]
                      show (repostUpd false c0).likes_count = _
                      have : (repostUpd false c0).likes_count = c0.likes_count := rfl
                      rw [this, hcl]
                    · rw [countKey_filter_out, hone]
                      show (repostUpd false c0).reposts_count = _
                      have : (repostUpd false c0).reposts_count = decFloor c0.reposts_count := by
                        simp [repostUpd]
                      rw [this, hcr, decFloor_of_pos _ (by exact_mod_cast hk1)]
                      omega
                | false =>
                    rw [if_neg (by simp [hcc])]
                    have hne : Target.song cid ≠ Target.song c0.cancion_id := by
                      intro hh
                      have := Target.song.inj hh
                      rw [beq_eq_false_iff_ne] at hcc
                      exact hcc this.symm
                    rw [countKey_filter_ne _ u _ _ _ _ (Or.inl hne),
                      countKey_filter_ne _ u _ _ _ _ (Or.inl hne)]
                    exact ⟨hcl, hcr⟩
      · intro u2 tgt2 tp2
        rw [hint]
        exact le_trans ((List.filter_sublist _).countP_le _) (hu u2 tgt2 tp2)
  | false =>
      rw [hA] at hcanc hint
      simp only [Bool.false_eq_true, if_false] at hint
      simp only [Bool.not_false] at hcanc
      have hzero : s.interacciones.countP (keyMatches u tgt tp) = 0 :=
        inactive_countP_zero s u tgt tp hA
      constructor
      · intro c2 hmem
        rw [hcanc] at hmem
        simp only [countInter]
        rw [hint]
        cases tgt with
        | playlist pid =>
            rw [bumpCounter_id s.canciones _ _ _
              (Or.inl (fun _ hh => Target.noConfusion hh))] at hmem
            obtain ⟨hcl, hcr⟩ := hc c2 hmem
            simp only [countInter] at hcl hcr
            rw [countKey_cons, countKey_cons]
            have hrow : ((Target.playlist pid == Target.song c2.cancion_id) = false) :=
              beq_eq_false_iff_ne.mpr (fun hh => Target.noConfusion hh)
            simp only [hrow, Bool.false_and, if_neg Bool.false_ne_true]
            simpa using And.intro hcl hcr
        | user uid =>
            rw [bumpCounter_id s.canciones _ _ _
              (Or.inl (fun _ hh => Target.noConfusion hh))] at hmem
            obtain ⟨hcl, hcr⟩ := hc c2 hmem
            simp only [countInter] at hcl hcr
            rw [countKey_cons, countKey_cons]
            have hrow : ((Target.user uid == Target.song c2.cancion_id) = false) :=
              beq_eq_false_iff_ne.mpr (fun hh => Target.noConfusion hh)
            simp only [hrow, Bool.false_and, if_neg Bool.false_ne_true]
            simpa using And.intro hcl hcr
        | song cid =>
            cases tp with
            | follow =>
                rw [bumpCounter_id s.canciones _ _ _ (Or.inr rfl)] at hmem
                obtain ⟨hcl, hcr⟩ := hc c2 hmem
                simp only [countInter] at hcl hcr
                rw [countKey_cons, countKey_cons]
                have h1 : ((Tipo.follow == Tipo.like) = false) := rfl
                have h2 : ((Tipo.follow == Tipo.repost) = false) := rfl
                simp only [h1, h2, Bool.and_false, if_neg Bool.false_ne_true]
                simpa using And.intro hcl hcr
            | like =>
                rw [show bumpCounter (Target.song cid) Tipo.like true s.canciones =
                    updateSong cid (likeUpd true) s.canciones from rfl] at hmem
                unfold updateSong at hmem
                rw [List.mem_map] at hmem
                obtain ⟨c0, hc0mem, hc0eq⟩ := hmem
                obtain ⟨hcl, hcr⟩ := hc c0 hc0mem
                simp only [countInter] at hcl hcr
                subst hc0eq
                rw [updateSong_id cid (likeUpd true) (fun c => rfl) c0]
                rw [countKey_cons, countKey_cons]
                cases hcc : (c0.cancion_id == cid) with
                | true =>
                    have hcid : c0.cancion_id = cid := eq_of_beq hcc
                    subst hcid
                    rw [if_pos rfl]
                    constructor
                    · have hself : ((Target.song c0.cancion_id == Target.song c0.cancion_id) = true) := by
                        simp
                      have hlk : ((Tipo.like == Tipo.like) = true) := rfl
                      simp only [hself, hlk, Bool.and_true, if_pos]
                      show (likeUpd true c0).likes_count = _
                      have : (likeUpd true c0).likes_count = c0.likes_count + 1 := by
                        simp [likeUpd]
                      rw [this, hcl]
                      push_cast
                      ring
                    · have hlr : ((Tipo.like == Tipo.repost) = false) := rfl
                      simp only [hlr, Bool.and_false, if_neg Bool.false_ne_true]
                      show (likeUpd true c0).reposts_count = _
                      have : (likeUpd true c0).reposts_count = c0.reposts_count := rfl
                      rw [this, hcr]
                      simp
                | false =>
                    rw [if_neg (by simp [hcc])]
                    have hne : cid ≠ c0.cancion_id := by
                      rw [beq_eq_false_iff_ne] at hcc
                      exact fun hh => hcc hh.symm
                    have hrow : ((Target.song cid == Target.song c0.cancion_id) = false) :=
                      song_beq_ne cid c0.cancion_id hne
                    simp only [hrow, Bool.false_and, if_neg Bool.false_ne_true]
                    simpa using And.intro hcl hcr
            | repost =>
                rw [show bumpCounter (Target.song cid) Tipo.repost true s.canciones =
                    updateSong cid (repostUpd true) s.canciones from rfl] at hmem
                unfold updateSong at hmem
                rw [List.mem_map] at hmem
                obtain ⟨c0, hc0mem, hc0eq⟩ := hmem
                obtain ⟨hcl, hcr⟩ := hc c0 hc0mem
                simp only [countInter] at hcl hcr
                subst hc0eq
                rw [updateSong_id cid (repostUpd true) (fun c => rfl) c0]
                rw [countKey_cons, countKey_cons]
                cases hcc : (c0.cancion_id == cid) with
                | true =>
                    have hcid : c0.cancion_id = cid := eq_of_beq hcc
                    subst hcid
                    rw [if_pos rfl]
                    constructor
                    · have hrl : ((Tipo.repost == Tipo.like) = false) := rfl
                      simp only [hrl, Bool.and_false, if_neg Bool.false_ne_true]
                      show (repostUpd true c0).likes_count = _
                      have : (repostUpd true c0).likes_count = c0.likes_count := rfl
                      rw [this, hcl]
                      simp
                    · have hself : ((Target.song c0.cancion_id == Target.song c0.cancion_id) = true) := by
                        simp
                      have hrr : ((Tipo.repost == Tipo.repost) = true) := rfl
                      simp only [hself, hrr, Bool.and_true, if_pos]
                      show (repostUpd true c0).reposts_count = _
                      have : (repostUpd true c0).reposts_count = c0.reposts_count + 1 := by
                        simp [repostUpd]
                      rw [this, hcr]
                      push_cast
                      ring
                | false =>
                    rw [if_neg (by simp [hcc])]
                    have hne : cid ≠ c0.cancion_id := by
                      rw [beq_eq_false_iff_ne] at hcc
                      exact fun hh => hcc hh.symm
                    have hrow : ((Target.song cid == Target.song c0.cancion_id) = false) :=
                      song_beq_ne cid c0.cancion_id hne
                    simp only [hrow, Bool.false_and, if_neg Bool.false_ne_true]
                    simpa using And.intro hcl hcr
      · intro u2 tgt2 tp2
        rw [hint, List.countP_cons]
        by_cases heq : u2 = u ∧ tgt2 = tgt ∧ tp2 = tp
        · obtain ⟨h1, h2, h3⟩ := heq
          subst h1
          subst h2
          subst h3
          rw [inactive_countP_zero s u2 tgt2 tp2 hA]
          rw [keyMatches_self u2 tgt2 tp2]
          simp
        · have hrow : keyMatches u2 tgt2 tp2 { usuario_id := u, target := tgt, tipo := tp } = false := by
            unfold keyMatches
            by_contra hcon
            simp only [Bool.not_eq_false, Bool.and_eq_true, beq_iff_eq] at hcon
            exact heq ⟨hcon.1.1.symm, hcon.1.2.symm, hcon.2.symm⟩
          rw [hrow]
          simpa using hu u2 tgt2 tp2

theorem reachable_inv (s : DBState) (h : Reachable s) : countersOk s ∧ uniqueOk s := by
  induction h with
  | init ids pls us =>
      constructor
      · intro c hmem
        simp only [initState, List.mem_map] at hmem
        obtain ⟨p, -, hp⟩ := hmem
        subst hp
        constructor <;> simp [countInter, countKey, initState]
      · intro u tgt tp
        simp [initState]
  | toggle s u tp tgt res hr htog ih =>
      exact toggle_preserves_inv s u tp tgt res htog ih.1 ih.2
  | upload s cid t hr hfresh ih =>
      have hz : ∀ tp2 : Tipo, countKey s.interacciones (Target.song cid) tp2 = 0 := by
        intro tp2
        unfold countKey
        rw [List.countP_eq_zero]
        intro r hr2 hk
        simp only [Bool.and_eq_true] at hk
        have h1 := eq_of_beq hk.1
        have h2 := List.all_eq_true.mp hfresh r hr2
        rw [h1] at h2
        simp at h2
      constructor
      · intro c hmem
        rw [List.mem_cons] at hmem
        rcases hmem with hmem | hmem
        · subst hmem
          constructor
          · show (0 : Int) = _
            simp only [countInter]
            rw [hz Tipo.like]
            rfl
          · show (0 : Int) = _
            simp only [countInter]
            rw [hz Tipo.repost]
            rfl
        · exact ih.1 c hmem
      · intro u tgt tp
        exact ih.2 u tgt tp

/-- C1: in every state reachable between completed toggle operations the
denormalized likes_count and reposts_count of every song equal the number of
active interaction rows of the corresponding tipo referencing that song. -/
theorem counters_in_lockstep (s : DBState) (h : Reachable s) :
    ∀ c ∈ s.canciones,
      c.likes_count = (countInter s (Target.song c.cancion_id) Tipo.like : Int) ∧
      c.reposts_count = (countInter s (Target.song c.cancion_id) Tipo.repost : Int) :=
  (reachable_inv s h).1

/-- Witness for C1 at the state reached by one completed like toggle. -/
theorem counters_in_lockstep_witness :
    Reachable demoLiked ∧
    (1 : Int) = (countInter demoLiked (Target.song 1) Tipo.like : Int) := by
  have hre : Reachable demoLiked :=
    Reachable.toggle (initState [(1, "a")] [] []) 1 Tipo.like (Target.song 1)
      { state := demoLiked, activo := true } (Reachable.init [(1, "a")] [] []) rfl
  refine ⟨hre, ?_⟩
  have hmem : ({ cancion_id := 1, titulo := "a", likes_count := 1, reposts_count := 0 } : Cancion)
      ∈ demoLiked.canciones := by
    simp [demoLiked]
  exact (counters_in_lockstep demoLiked hre _ hmem).1

/-- C5: in every reachable state there is at most one interaction row per
(user, target, tipo) key, for every target kind. -/
theorem unique_interaction_rows (s : DBState) (h : Reachable s) :
    ∀ (u : Nat) (tgt : Target) (tp : Tipo),
      s.interacciones.countP (keyMatches u tgt tp) ≤ 1 :=
  (reachable_inv s h).2

/-- Witness for C5 at the state reached by one completed like toggle. -/
theorem unique_interaction_rows_witness :
    Reachable demoLiked ∧
    demoLiked.interacciones.countP (keyMatches 1 (Target.song 1) Tipo.like) ≤ 1 := by
  have hre : Reachable demoLiked :=
    Reachable.toggle (initState [(1, "a")] [] []) 1 Tipo.like (Target.song 1)
      { state := demoLiked, activo := true } (Reachable.init [(1, "a")] [] []) rfl
  exact ⟨hre, unique_interaction_rows demoLiked hre 1 (Target.song 1) Tipo.like⟩

/-- C3: a toggle call on an existing target of matching kind deletes the
active row and decrements the counter floored at zero when the row exists,
inserts a row and increments the counter otherwise, and returns the resulting
active state, which agrees with the stored state so the caller needs no
follow-up read. -/
theorem toggle_contract (s : DBState) (u : Nat) (tp : Tipo) (tgt : Target)
    (hk : kindMatches tgt tp = true) (ht : targetExists s tgt = true) :
    ∃ res : ToggleResult,
      toggleInteraction s u tp tgt = .ok res ∧
      res.activo = !(isActive s u tgt tp) ∧
      isActive res.state u tgt tp = res.activo ∧
      (isActive s u tgt tp = true →
        res.state.interacciones = s.interacciones.filter (fun r => !(keyMatches u tgt tp r)) ∧
        ∀ cid, tgt = Target.song cid →
          counterOf res.state tgt tp = max (counterOf s tgt tp - 1) 0 ∧
          0 ≤ counterOf res.state tgt tp) ∧
      (isActive s u tgt tp = false →
        res.state.interacciones =
          { usuario_id := u, target := tgt, tipo := tp } :: s.interacciones ∧
        ∀ cid, tgt = Target.song cid →
          counterOf res.state tgt tp = counterOf s tgt tp + 1) := by
  have hcount : ∀ up : Bool, ∀ cid, tgt = Target.song cid →
      counterIn (bumpCounter tgt tp up s.canciones) tgt tp =
        (if up then counterIn s.canciones tgt tp + 1
         else decFloor (counterIn s.canciones tgt tp)) := by
    intro up cid hcid
    subst hcid
    have hex : s.canciones.any (fun c => c.cancion_id == cid) = true := ht
    cases tp with
    | like => exact counterIn_bump_like s.canciones cid up hex
    | repost => exact counterIn_bump_repost s.canciones cid up hex
    | follow => simp [kindMatches] at hk
  unfold toggleInteraction
  rw [if_pos ht]
  cases hact : isActive s u tgt tp with
  | true =>
      rw [if_pos rfl]
      refine ⟨_, rfl, rfl, ?_, ?_, ?_⟩
      · exact isActive_after_filter s.interacciones u tgt tp
      · intro _
        refine ⟨rfl, ?_⟩
        intro cid hcid
        have h1 := hcount false cid hcid
        rw [if_neg (by simp)] at h1
        unfold counterOf
        refine ⟨h1, ?_⟩
        rw [h1]
        unfold decFloor
        exact le_max_right _ _
      · intro hco
        simp at hco
  | false =>
      rw [if_neg (by simp)]
      refine ⟨_, rfl, rfl, ?_, ?_, ?_⟩
      · show (_ :: s.interacciones).any (keyMatches u tgt tp) = true
        rw [List.any_cons, keyMatches_self]
        rfl
      · intro hco
        simp at hco
      · intro _
        refine ⟨rfl, ?_⟩
        intro cid hcid
        have h1 := hcount true cid hcid
        rw [if_pos rfl] at h1
        exact h1

/-- Witness for C3 at a one-song catalog with no prior interactions. -/
theorem toggle_contract_witness :
    kindMatches (Target.song 1) Tipo.like = true ∧
    targetExists
      { canciones := [{ cancion_id := 1, titulo := "a", likes_count := 0, reposts_count := 0 }],
        playlists := [], usuarios := [], interacciones := [] }
      (Target.song 1) = true ∧
    ∃ res : ToggleResult,
      toggleInteraction
        { canciones := [{ cancion_id := 1, titulo := "a", likes_count := 0, reposts_count := 0 }],
          playlists := [], usuarios := [], interacciones := [] }
        1 Tipo.like (Target.song 1) = .ok res ∧
      res.activo = true :=
  ⟨by decide, by decide, by
    obtain ⟨res, h1, h2, -, -, -⟩ := toggle_contract
      { canciones := [{ cancion_id := 1, titulo := "a", likes_count := 0, reposts_count := 0 }],
        playlists := [], usuarios := [], interacciones := [] }
      1 Tipo.like (Target.song 1) (by decide) (by decide)
    exact ⟨res, h1, by rw [h2]; decide⟩⟩

/-- C8: while a toggle request is in flight the AudioCard click handler
ignores further clicks (the loading guard leaves the state unchanged and sends
no request), and one completed toggle never changes any stored nonnegative
counter by more than one. -/
theorem rapid_toggle_guard :
    (∀ (st : AudioCardState) (activo : Bool),
      st.loading = true → handleLike st activo = (st, false)) ∧
    (∀ (s : DBState) (u : Nat) (tp : Tipo) (tgt : Target) (res : ToggleResult),
      toggleInteraction s u tp tgt = .ok res →
      ∀ tgt2 tp2, 0 ≤ counterOf s tgt2 tp2 →
        (counterOf res.state tgt2 tp2 - counterOf s tgt2 tp2).natAbs ≤ 1) := by
  constructor
  · intro st activo hl
    unfold handleLike
    cases hc : st.cancionId with
    | none => rfl
    | some cid => rw [if_pos hl]
  · intro s u tp tgt res h tgt2 tp2 h0
    obtain ⟨hcanc, -, -, -, -⟩ := toggle_ok_cases s u tp tgt res h
    unfold counterOf at h0 ⊢
    rw [hcanc]
    by_cases heq : tgt = tgt2 ∧ tp = tp2
    · obtain ⟨h1, h2⟩ := heq
      subst h1
      subst h2
      cases tgt with
      | playlist pid => simp [counterIn]
      | user uid => simp [counterIn]
      | song cid =>
          cases tp with
          | follow => rw [bumpCounter_id _ _ _ _ (Or.inr rfl)]; simp
          | like =>
              cases hex : s.canciones.any (fun c => c.cancion_id == cid) with
              | true =>
                  rw [counterIn_bump_like s.canciones cid _ hex]
                  cases hact : (!(isActive s u (Target.song cid) Tipo.like)) with
                  | true => rw [if_pos rfl]; omega
                  | false =>
                      rw [if_neg (by simp)]
                      exact decFloor_delta _ h0
              | false =>
                  have hnone : s.canciones.find? (fun c => c.cancion_id == cid) = none := by
                    rw [List.find?_eq_none]
                    intro c hc
                    have := List.any_eq_true.not.mp (by rw [hex]; simp)
                    push_neg at this
                    simpa using this c hc
                  have hb : bumpCounter (Target.song cid) Tipo.like
                      (!(isActive s u (Target.song cid) Tipo.like)) s.canciones =
                      updateSong cid (likeUpd (!(isActive s u (Target.song cid) Tipo.like)))
                        s.canciones := rfl
                  rw [hb]
                  simp only [counterIn]
                  rw [find?_updateSong_none cid cid
                    (likeUpd (!(isActive s u (Target.song cid) Tipo.like)))
                    (fun c => rfl) _ hnone, hnone]
                  simp
          | repost =>
              cases hex : s.canciones.any (fun c => c.cancion_id == cid) with
              | true =>
                  rw [counterIn_bump_repost s.canciones cid _ hex]
                  cases hact : (!(isActive s u (Target.song cid) Tipo.repost)) with
                  | true => rw [if_pos rfl]; omega
                  | false =>
                      rw [if_neg (by simp)]
                      exact decFloor_delta _ h0
              | false =>
                  have hnone : s.canciones.find? (fun c => c.cancion_id == cid) = none := by
                    rw [List.find?_eq_none]
                    intro c hc
                    have := List.any_eq_true.not.mp (by rw [hex]; simp)
                    push_neg at this
                    simpa using this c hc
                  have hb : bumpCounter (Target.song cid) Tipo.repost
                      (!(isActive s u (Target.song cid) Tipo.repost)) s.canciones =
                      updateSong cid (repostUpd (!(isActive s u (Target.song cid) Tipo.repost)))
                        s.canciones := rfl
                  rw [hb]
                  simp only [counterIn]
                  rw [find?_updateSong_none cid cid
                    (repostUpd (!(isActive s u (Target.song cid) Tipo.repost)))
                    (fun c => rfl) _ hnone, hnone]
                  simp
    · have hne : tgt ≠ tgt2 ∨ tp ≠ tp2 := by
        by_cases h1 : tgt = tgt2
        · right; exact fun h2 => heq ⟨h1, h2⟩
        · left; exact h1
      rw [counterIn_bump_ne s.canciones tgt tp _ tgt2 tp2 hne]
      simp

/-- Witness for C8: a loading card ignores a click, and a concrete completed
toggle moves the counter by exactly one. -/
theorem rapid_toggle_guard_witness :
    handleLike { cancionId := some 1, isLiked := false, likes := 5, loading := true } true =
      ({ cancionId := some 1, isLiked := false, likes := 5, loading := true }, false) ∧
    ((counterOf
        { canciones := [{ cancion_id := 1, titulo := "a", likes_count := 1, reposts_count := 0 }],
          playlists := [], usuarios := [],
          interacciones := [{ usuario_id := 1, target := .song 1, tipo := .like }] }
        (Target.song 1) Tipo.like -
      counterOf
        { canciones := [{ cancion_id := 1, titulo := "a", likes_count := 0, reposts_count := 0 }],
          playlists := [], usuarios := [], interacciones := [] }
        (Target.song 1) Tipo.like).natAbs ≤ 1) :=
  ⟨rapid_toggle_guard.1 _ true rfl,
    rapid_toggle_guard.2
      { canciones := [{ cancion_id := 1, titulo := "a", likes_count := 0, reposts_count := 0 }],
        playlists := [], usuarios := [], interacciones := [] }
      1 Tipo.like (Target.song 1)
      { state :=
          { canciones := [{ cancion_id := 1, titulo := "a", likes_count := 1, reposts_count := 0 }],
            playlists := [], usuarios := [],
            interacciones := [{ usuario_id := 1, target := .song 1, tipo := .like }] },
        activo := true }
      (by rfl) (Target.song 1) Tipo.like (by decide)⟩

theorem updateSong_updateSong (cid : Nat) (f g : Cancion → Cancion)
    (hg : ∀ c, (g c).cancion_id = c.cancion_id) (cs : List Cancion) :
    updateSong cid f (updateSong cid g cs) = updateSong cid (fun c => f (g c)) cs := by
  unfold updateSong
  rw [List.map_map]
  apply List.map_congr_left
  intro c _
  simp only [Function.comp]
  cases hcc : (c.cancion_id == cid) <;> simp [hg c, hcc]

theorem updateSong_eq_self (cid : Nat) (f : Cancion → Cancion) (cs : List Cancion)
    (h : ∀ c ∈ cs, c.cancion_id = cid → f c = c) :
    updateSong cid f cs = cs := by
  unfold updateSong
  conv_rhs => rw [← List.map_id cs]
  apply List.map_congr_left
  intro c hmem
  cases hcc : (c.cancion_id == cid) with
  | true => simpa using h c hmem (eq_of_beq hcc)
  | false => simp

theorem likeUpd_ins_del (c : Cancion) (h : 0 ≤ c.likes_count) :
    likeUpd false (likeUpd true c) = c := by
  cases c with
  | mk id t lk rp =>
      simp only [likeUpd, if_pos, if_neg]
      simp only at h
      simp [decFloor_of_nonneg_succ lk h]

theorem likeUpd_del_ins (c : Cancion) (h : 1 ≤ c.likes_count) :
    likeUpd true (likeUpd false c) = c := by
  cases c with
  | mk id t lk rp =>
      simp only [likeUpd]
      simp only at h
      simp [decFloor_of_pos lk h]

theorem repostUpd_ins_del (c : Cancion) (h : 0 ≤ c.reposts_count) :
    repostUpd false (repostUpd true c) = c := by
  cases c with
  | mk id t lk rp =>
      simp only [repostUpd]
      simp only at h
      simp [decFloor_of_nonneg_succ rp h]

theorem repostUpd_del_ins (c : Cancion) (h : 1 ≤ c.reposts_count) :
    repostUpd true (repostUpd false c) = c := by
  cases c with
  | mk id t lk rp =>
      simp only [repostUpd]
      simp only at h
      simp [decFloor_of_pos rp h]

theorem bump_cancel_ins_del (tgt : Target) (tp : Tipo) (cs : List Cancion)
    (h : ∀ c ∈ cs, 0 ≤ c.likes_count ∧ 0 ≤ c.reposts_count) :
    bumpCounter tgt tp false (bumpCounter tgt tp true cs) = cs := by
  cases tgt with
  | playlist pid => rfl
  | user uid => rfl
  | song cid =>
      cases tp with
      | follow => rfl
      | like =>
          show updateSong cid (likeUpd false) (updateSong cid (likeUpd true) cs) = cs
          rw [updateSong_updateSong cid (likeUpd false) (likeUpd true) (fun c => rfl) cs]
          exact updateSong_eq_self cid _ cs (fun c hm _ => likeUpd_ins_del c (h c hm).1)
      | repost =>
          show updateSong cid (repostUpd false) (updateSong cid (repostUpd true) cs) = cs
          rw [updateSong_updateSong cid (repostUpd false) (repostUpd true) (fun c => rfl) cs]
          exact updateSong_eq_self cid _ cs (fun c hm _ => repostUpd_ins_del c (h c hm).2)

theorem bump_cancel_del_ins (tgt : Target) (tp : Tipo) (cs : List Cancion)
    (h : ∀ c ∈ cs, c.cancion_id ∈ ({cid2 | tgt = Target.song cid2} : Set Nat) →
      (tp = Tipo.like → 1 ≤ c.likes_count) ∧ (tp = Tipo.repost → 1 ≤ c.reposts_count)) :
    bumpCounter tgt tp true (bumpCounter tgt tp false cs) = cs := by
  cases tgt with
  | playlist pid => rfl
  | user uid => rfl
  | song cid =>
      cases tp with
      | follow => rfl
      | like =>
          show updateSong cid (likeUpd true) (updateSong cid (likeUpd false) cs) = cs
          rw [updateSong_updateSong cid (likeUpd true) (likeUpd false) (fun c => rfl) cs]
          refine updateSong_eq_self cid _ cs (fun c hm hcid => ?_)
          exact likeUpd_del_ins c ((h c hm (by simp [hcid])).1 rfl)
      | repost =>
          show updateSong cid (repostUpd true) (updateSong cid (repostUpd false) cs) = cs
          rw [updateSong_updateSong cid (repostUpd true) (repostUpd false) (fun c => rfl) cs]
          refine updateSong_eq_self cid _ cs (fun c hm hcid => ?_)
          exact repostUpd_del_ins c ((h c hm (by simp [hcid])).2 rfl)

theorem filter_not_key_eq_self (l : List Interaccion) (u : Nat) (tgt : Target) (tp : Tipo)
    (hz : l.countP (keyMatches u tgt tp) = 0) :
    l.filter (fun r => !(keyMatches u tgt tp r)) = l := by
  rw [List.filter_eq_self]
  intro a ha
  rw [List.countP_eq_zero] at hz
  simp [hz a ha]

theorem any_updateSong (cid cid2 : Nat) (f : Cancion → Cancion)
    (hf : ∀ c, (f c).cancion_id = c.cancion_id) (cs : List Cancion) :
    (updateSong cid f cs).any (fun c => c.cancion_id == cid2) =
      cs.any (fun c => c.cancion_id == cid2) := by
  unfold updateSong
  rw [List.any_map]
  induction cs with
  | nil => rfl
  | cons c rest ih =>
      simp only [List.any_cons, ih]
      congr 1
      simp only [Function.comp]
      rw [updateSong_id cid f hf c]

theorem any_bumpCounter (tgt0 : Target) (tp0 : Tipo) (up : Bool) (cs : List Cancion)
    (cid2 : Nat) :
    (bumpCounter tgt0 tp0 up cs).any (fun c => c.cancion_id == cid2) =
      cs.any (fun c => c.cancion_id == cid2) := by
  cases tgt0 with
  | playlist pid => rfl
  | user uid => rfl
  | song cid =>
      cases tp0 with
      | follow => rfl
      | like => exact any_updateSong cid cid2 (likeUpd up) (fun c => rfl) cs
      | repost => exact any_updateSong cid cid2 (repostUpd up) (fun c => rfl) cs

theorem targetExists_toggle (s : DBState) (u : Nat) (tp : Tipo) (tgt : Target)
    (res : ToggleResult) (h : toggleInteraction s u tp tgt = .ok res) (tgt2 : Target) :
    targetExists res.state tgt2 = targetExists s tgt2 := by
  obtain ⟨hcanc, hpl, hus, -, -⟩ := toggle_ok_cases s u tp tgt res h
  cases tgt2 with
  | song cid2 =>
      show (res.state.canciones).any _ = (s.canciones).any _
      rw [hcanc]
      exact any_bumpCounter tgt tp _ s.canciones cid2
  | playlist pid2 =>
      show (res.state.playlists).contains pid2 = _
      rw [hpl]
      rfl
  | user uid2 =>
      show (res.state.usuarios).contains uid2 = _
      rw [hus]
      rfl

/-- C2 amended: from every starting state satisfying the counter and
uniqueness invariants (in particular every reachable state) and whose target
exists, toggling the same (user, tipo, target) twice restores the active
state of the interaction and every stored song counter to their original
values. -/
theorem toggle_twice_restores (s : DBState) (u : Nat) (tp : Tipo) (tgt : Target)
    (hc : countersOk s) (hu : uniqueOk s) (ht : targetExists s tgt = true) :
    ∃ r2 : ToggleResult,
      toggleTwice s u tp tgt = .ok r2 ∧
      isActive r2.state u tgt tp = isActive s u tgt tp ∧
      r2.state.canciones = s.canciones := by
  have hnn : ∀ c ∈ s.canciones, 0 ≤ c.likes_count ∧ 0 ≤ c.reposts_count := by
    intro c hm
    obtain ⟨h1, h2⟩ := hc c hm
    constructor
    · rw [h1]; exact Int.natCast_nonneg _
    · rw [h2]; exact Int.natCast_nonneg _
  cases hA : isActive s u tgt tp with
  | false =>
      have h1 : toggleInteraction s u tp tgt =
          .ok { state := { s with
                  interacciones :=
                    { usuario_id := u, target := tgt, tipo := tp } :: s.interacciones,
                  canciones := bumpCounter tgt tp true s.canciones },
                activo := true } := by
        unfold toggleInteraction
        rw [if_pos ht, if_neg (by simp [hA])]
      have ht2 : targetExists
          { s with
            interacciones := { usuario_id := u, target := tgt, tipo := tp } :: s.interacciones,
            canciones := bumpCounter tgt tp true s.canciones } tgt = true := by
        cases tgt with
        | song cid =>
            show (bumpCounter (Target.song cid) tp true s.canciones).any _ = true
            rw [any_bumpCounter]
            exact ht
        | playlist pid => exact ht
        | user uid => exact ht
      have hA2 : isActive
          { s with
            interacciones := { usuario_id := u, target := tgt, tipo := tp } :: s.interacciones,
            canciones := bumpCounter tgt tp true s.canciones } u tgt tp = true := by
        show (_ :: s.interacciones).any (keyMatches u tgt tp) = true
        rw [List.any_cons, keyMatches_self]
        rfl
      have h2 : toggleInteraction
          { s with
            interacciones := { usuario_id := u, target := tgt, tipo := tp } :: s.interacciones,
            canciones := bumpCounter tgt tp true s.canciones } u tp tgt =
          .ok { state := { s with
                  interacciones :=
                    ({ usuario_id := u, target := tgt, tipo := tp } ::
                      s.interacciones).filter (fun r => !(keyMatches u tgt tp r)),
                  canciones :=
                    bumpCounter tgt tp false (bumpCounter tgt tp true s.canciones) },
                activo := false } := by
        unfold toggleInteraction
        rw [if_pos ht2, if_pos hA2]
      refine ⟨{ state := { s with
                  interacciones :=
                    ({ usuario_id := u, target := tgt, tipo := tp } ::
                      s.interacciones).filter (fun r => !(keyMatches u tgt tp r)),
                  canciones :=
                    bumpCounter tgt tp false (bumpCounter tgt tp true s.canciones) },
                activo := false }, ?_, ?_, ?_⟩
      · unfold toggleTwice
        rw [h1]
        exact h2
      · exact isActive_after_filter _ u tgt tp
      · show bumpCounter tgt tp false (bumpCounter tgt tp true s.canciones) = s.canciones
        exact bump_cancel_ins_del tgt tp s.canciones hnn
  | true =>
      have hone : s.interacciones.countP (keyMatches u tgt tp) = 1 :=
        active_countP_one s u tgt tp hA hu
      have h1 : toggleInteraction s u tp tgt =
          .ok { state := { s with
                  interacciones :=
                    s.interacciones.filter (fun r => !(keyMatches u tgt tp r)),
                  canciones := bumpCounter tgt tp false s.canciones },
                activo := false } := by
        unfold toggleInteraction
        rw [if_pos ht, if_pos hA]
      have ht2 : targetExists
          { s with
            interacciones := s.interacciones.filter (fun r => !(keyMatches u tgt tp r)),
            canciones := bumpCounter tgt tp false s.canciones } tgt = true := by
        cases tgt with
        | song cid =>
            show (bumpCounter (Target.song cid) tp false s.canciones).any _ = true
            rw [any_bumpCounter]
            exact ht
        | playlist pid => exact ht
        | user uid => exact ht
      have hA2 : isActive
          { s with
            interacciones := s.interacciones.filter (fun r => !(keyMatches u tgt tp r)),
            canciones := bumpCounter tgt tp false s.canciones } u tgt tp = false :=
        isActive_after_filter s.interacciones u tgt tp
      have h2 : toggleInteraction
          { s with
            interacciones := s.interacciones.filter (fun r => !(keyMatches u tgt tp r)),
            canciones := bumpCounter tgt tp false s.canciones } u tp tgt =
          .ok { state := { s with
                  interacciones :=
                    { usuario_id := u, target := tgt, tipo := tp } ::
                      s.interacciones.filter (fun r => !(keyMatches u tgt tp r)),
                  canciones :=
                    bumpCounter tgt tp true (bumpCounter tgt tp false s.canciones) },
                activo := true } := by
        unfold toggleInteraction
        rw [if_pos ht2, if_neg (by simp [hA2])]
      refine ⟨{ state := { s with
                  interacciones :=
                    { usuario_id := u, target := tgt, tipo := tp } ::
                      s.interacciones.filter (fun r => !(keyMatches u tgt tp r)),
                  canciones :=
                    bumpCounter tgt tp true (bumpCounter tgt tp false s.canciones) },
                activo := true }, ?_, ?_, ?_⟩
      · unfold toggleTwice
        rw [h1]
        exact h2
      · show (_ :: _).any (keyMatches u tgt tp) = true
        rw [List.any_cons, keyMatches_self]
        rfl
      · show bumpCounter tgt tp true (bumpCounter tgt tp false s.canciones) = s.canciones
        apply bump_cancel_del_ins tgt tp s.canciones
        intro c hm hcid
        simp only [Set.mem_setOf_eq] at hcid
        obtain ⟨h1c, h2c⟩ := hc c hm
        constructor
        · intro htp
          subst htp
          rw [h1c]
          have hk1 : 1 ≤ countKey s.interacciones (Target.song c.cancion_id) Tipo.like := by
            have hle := countKey_le_of_key s.interacciones u (Target.song c.cancion_id) Tipo.like
            rw [hcid] at hone
            omega
          exact_mod_cast hk1
        · intro htp
          subst htp
          rw [h2c]
          have hk1 : 1 ≤ countKey s.interacciones (Target.song c.cancion_id) Tipo.repost := by
            have hle := countKey_le_of_key s.interacciones u (Target.song c.cancion_id) Tipo.repost
            rw [hcid] at hone
            omega
          exact_mod_cast hk1

/-- Witness for C2 amended at the state reached by one completed like toggle:
toggling twice more restores the counter and the active flag. -/
theorem toggle_twice_restores_witness :
    ∃ r2 : ToggleResult,
      toggleTwice demoLiked 1 Tipo.like (Target.song 1) = .ok r2 ∧
      isActive r2.state 1 (Target.song 1) Tipo.like =
        isActive demoLiked 1 (Target.song 1) Tipo.like ∧
      r2.state.canciones = demoLiked.canciones :=
  toggle_twice_restores demoLiked 1 Tipo.like (Target.song 1)
    (by
      intro c hm
      simp only [demoLiked, List.mem_singleton] at hm
      subst hm
      constructor <;> rfl)
    (by
      intro u tgt tp
      show List.countP _
        [({ usuario_id := 1, target := .song 1, tipo := .like } : Interaccion)] ≤ 1
      rw [List.countP_cons]
      split <;> simp [List.countP_nil])
    (by rfl)

/-- Counterexample to C2 as stated: on a starting state violating the counter
invariant (an active like row but a stored likes_count of zero, a state the
floored decrement makes relevant) the double toggle raises the stored counter
from zero to one instead of restoring it. -/
theorem toggle_twice_cex :
    (toggleTwice demoMismatch 1 Tipo.like (Target.song 1)).map
      (fun r => counterOf r.state (Target.song 1) Tipo.like) = .ok 1 ∧
    counterOf demoMismatch (Target.song 1) Tipo.like = 0 := by
  constructor <;> rfl

/-- C10: logout removes both stored tokens on every execution path, after
which isAuthenticated is false; when the server call threw, the error is
rethrown after the cleanup, otherwise the success message is returned. -/
theorem logout_clears (t : ClientTokens) (b : Bool) :
    (logout t b).2 = { access_token := none, refresh_token := none } ∧
    isAuthenticated (logout t b).2 = false ∧
    (logout t b).1 =
      (if t.refresh_token.isSome && b then .error () else .ok "Logout exitoso") := by
  obtain ⟨acc, rt⟩ := t
  cases rt <;> cases b <;> simp [logout, isAuthenticated]

/-- C4: a toggle call whose referenced target does not exist fails with the
not-found error and never returns a successful state, so no interaction row is
created. -/
theorem toggle_missing_target (s : DBState) (u : Nat) (tp : Tipo) (tgt : Target)
    (h : targetExists s tgt = false) :
    toggleInteraction s u tp tgt = .error .notFound ∧
    ∀ res : ToggleResult, toggleInteraction s u tp tgt ≠ .ok res := by
  refine ⟨?_, ?_⟩ <;> simp [toggleInteraction, h]

/-- Witness for C4 at the empty database and a missing song. -/
theorem toggle_missing_target_witness :
    targetExists
      { canciones := [], playlists := [], usuarios := [], interacciones := [] }
      (Target.song 7) = false ∧
    toggleInteraction
      { canciones := [], playlists := [], usuarios := [], interacciones := [] }
      1 Tipo.like (Target.song 7) = .error .notFound :=
  ⟨by decide,
    (toggle_missing_target
      { canciones := [], playlists := [], usuarios := [], interacciones := [] }
      1 Tipo.like (Target.song 7) (by decide)).1⟩

theorem insertRow_perm (r : PlaylistCancion) (l : List PlaylistCancion) :
    (insertRow r l).Perm (r :: l) := by
  induction l with
  | nil => exact List.Perm.refl _
  | cons x xs ih =>
      unfold insertRow
      by_cases h : x.orden < r.orden
      · rw [if_pos h]
        exact (List.Perm.cons x ih).trans (List.Perm.swap r x xs)
      · rw [if_neg h]

theorem sortByOrden_perm (l : List PlaylistCancion) : (sortByOrden l).Perm l := by
  induction l with
  | nil => exact List.Perm.refl _
  | cons x xs ih =>
      exact (insertRow_perm x (sortByOrden xs)).trans (List.Perm.cons x ih)

theorem insertRow_pairwise (r : PlaylistCancion) (l : List PlaylistCancion)
    (h : List.Pairwise (fun a b => a.orden ≤ b.orden) l) :
    List.Pairwise (fun a b => a.orden ≤ b.orden) (insertRow r l) := by
  induction l with
  | nil => simp [insertRow]
  | cons x xs ih =>
      unfold insertRow
      rcases List.pairwise_cons.mp h with ⟨hx, hxs⟩
      by_cases hlt : x.orden < r.orden
      · rw [if_pos hlt]
        rw [List.pairwise_cons]
        constructor
        · intro y hy
          have hmem : y = r ∨ y ∈ xs := by
            have hp := (insertRow_perm r xs).mem_iff.mp hy
            simpa using hp
          rcases hmem with rfl | hmem
          · exact le_of_lt hlt
          · exact hx y hmem
        · exact ih hxs
      · rw [if_neg hlt]
        rw [List.pairwise_cons]
        constructor
        · intro y hy
          rcases List.mem_cons.mp hy with rfl | hmem
          · omega
          · exact le_trans (by omega) (hx y hmem)
        · exact h

theorem sortByOrden_pairwise (l : List PlaylistCancion) :
    List.Pairwise (fun a b => a.orden ≤ b.orden) (sortByOrden l) := by
  induction l with
  | nil => simp [sortByOrden]
  | cons x xs ih => exact insertRow_pairwise x _ ih

/-- C9: reordering a playlist holding songs a, b, c to the order c, a, b by the
bulk orden update and re-fetching returns exactly c, a, b; and for every rows
list, duplicates and gaps included, the fetch is a sorted permutation of the
rows. -/
theorem reorder_roundtrip :
    (∀ (a b c : Nat) (oa ob oc : Int), a ≠ b → a ≠ c → b ≠ c →
      fetchIds (reorder [c, a, b]
        [{ cancion_id := a, orden := oa }, { cancion_id := b, orden := ob },
         { cancion_id := c, orden := oc }]) = [c, a, b]) ∧
    (∀ rows : List PlaylistCancion,
      (sortByOrden rows).Perm rows ∧
      List.Pairwise (fun x y => x.orden ≤ y.orden) (sortByOrden rows)) := by
  constructor
  · intro a b c oa ob oc hab hac hbc
    have hca : ((c == a) = false) := beq_eq_false_iff_ne.mpr (Ne.symm hac)
    have hcb : ((c == b) = false) := beq_eq_false_iff_ne.mpr (Ne.symm hbc)
    have hab2 : ((a == b) = false) := beq_eq_false_iff_ne.mpr hab
    have h1 : idxOf a [c, a, b] = 1 := by
      simp [idxOf, hca]
    have h2 : idxOf b [c, a, b] = 2 := by
      simp [idxOf, hcb, hab2]
    have h3 : idxOf c [c, a, b] = 0 := by
      simp [idxOf]
    unfold fetchIds reorder
    simp only [List.map_cons, List.map_nil, h1, h2, h3]
    norm_num [sortByOrden, insertRow]
  · intro rows
    exact ⟨sortByOrden_perm rows, sortByOrden_pairwise rows⟩

/-- Witness for C9 at songs 1, 2, 3 with duplicate starting orden values. -/
theorem reorder_roundtrip_witness :
    fetchIds (reorder [3, 1, 2]
      [{ cancion_id := 1, orden := 5 }, { cancion_id := 2, orden := 5 },
       { cancion_id := 3, orden := 7 }]) = [3, 1, 2] :=
  reorder_roundtrip.1 1 2 3 5 5 7 (by decide) (by decide) (by decide)

end SCClone
